import Mathlib

/-!
Shallow embedding of `common/xutil.c` (an X11 utility layer: property
decoder, modifier-mask resolver, error classifier) together with proofs
about its behaviour.

Machine integers are modelled as `Nat`/`Int`; the conversion of a
`ssize_t` value to the `size_t` argument of `memcpy` is taken modulo
`2^64` (the modelled platform is LP64).  Caller buffers and reply
payloads are modelled as total functions `Nat → UInt8` over the address
range starting at the corresponding pointer, so that writes or reads
past a bound are visible in the model rather than being cut off.
-/

set_option maxRecDepth 100000

namespace Awesome

/-- Predefined X11 atom `STRING` (value 31 in the core protocol). -/
def STRING : Nat := 31

/-- Predefined X11 atom `WINDOW` (value 33 in the core protocol). -/
def WINDOW : Nat := 33

/-- The `XCB_NONE` sentinel (zero). -/
def XCB_NONE : Nat := 0

/-- Modulus of the C type `size_t` on the modelled LP64 platform.  A
`ssize_t` expression passed as a `memcpy` count is reduced modulo this. -/
def SIZE_T_MOD : Int := 2 ^ 64

/-- A get-property reply as seen by `xutil_gettextprop`: the type atom,
the format, `value_len` (number of 8-bit units) and the payload.  The
payload function models the whole address range starting at the payload
pointer, so indices at or beyond `value_len` stand for adjacent,
conceptually uninitialized memory. -/
structure TextReply where
  type : Nat
  format : Nat
  value_len : Nat
  value : Nat → UInt8

/-- Result of `xutil_gettextprop`: whether the property-fetch request was
issued, the returned boolean, and the contents of the address range
starting at the `text` pointer after the call (index 0 is `text[0]`;
indices at or beyond the caller-declared length model memory past the
buffer). -/
structure TextpropResult where
  requestIssued : Bool
  ret : Bool
  mem : Nat → UInt8

/-- `xutil_gettextprop` (common/xutil.c, lines 41-90).  The property-fetch
request is issued unconditionally (line 49) before the `text`/`textlen`
check (line 54).  `utf8_atom` is the atom returned by the intern round
trip for `"UTF8_STRING"`, `textNull` models `text == NULL`, `textlen` is
the `ssize_t` buffer length and `mem` the prior contents of the address
range at `text`.  The comparison on line 74 is between `uint32_t`
`value_len` and the `ssize_t` expression `textlen - 1`, which in C is a
signed 64-bit comparison; the `memcpy` count `textlen - 2` on line 82 is
converted to `size_t`, i.e. reduced modulo `2^64`.  The terminator store
happens after the copy, so it wins on overlap. -/
def xutil_gettextprop (utf8_atom : Nat) (reply : Option TextReply)
    (textNull : Bool) (textlen : Int) (mem : Nat → UInt8) : TextpropResult :=
  if textNull then ⟨true, false, mem⟩
  else if textlen = 0 then ⟨true, false, mem⟩
  else
    match reply with
    | none => ⟨true, false, mem⟩
    | some r =>
      if r.value_len = 0 ∨ r.format ≠ 8 then ⟨true, false, mem⟩
      else if r.type = STRING ∨ r.type = utf8_atom then
        if (r.value_len : Int) < textlen - 1 then
          ⟨true, true, fun k =>
            if k = r.value_len then 0
            else if k < r.value_len then r.value k
            else mem k⟩
        else
          ⟨true, true, fun k =>
            if (k : Int) = textlen - 1 then 0
            else if (k : Int) < (textlen - 2) % SIZE_T_MOD then r.value k
            else mem k⟩
      else ⟨true, true, mem⟩

example :
    (xutil_gettextprop 340 (some ⟨31, 8, 5, fun _ => 65⟩)
      false 16 (fun _ => 7)).mem 3 = 65 := by decide

example :
    (xutil_gettextprop 340 (some ⟨31, 8, 5, fun _ => 65⟩)
      false 16 (fun _ => 7)).mem 5 = 0 := by decide

example :
    (xutil_gettextprop 340 (some ⟨31, 8, 5, fun _ => 65⟩)
      false 16 (fun _ => 7)).mem 6 = 7 := by decide

example :
    (xutil_gettextprop 340 (some ⟨31, 8, 20, fun _ => 65⟩)
      false 8 (fun _ => 7)).mem 5 = 65 := by decide

example :
    (xutil_gettextprop 340 (some ⟨31, 8, 20, fun _ => 65⟩)
      false 8 (fun _ => 7)).mem 6 = 7 := by decide

example :
    (xutil_gettextprop 340 (some ⟨31, 8, 20, fun _ => 65⟩)
      false 8 (fun _ => 7)).mem 7 = 0 := by decide

example :
    (xutil_gettextprop 340 (some ⟨31, 8, 1, fun _ => 65⟩)
      false 1 (fun _ => 7)).mem 1 = 65 := by decide

/-- C3: `xutil_gettextprop` returns false iff the reply is absent, or its
format is not 8, or its length (`value_len`) is zero, or the buffer
pointer is null, or the buffer length is zero; in every other case it
returns true, and in particular a reply whose type is neither `STRING`
nor the interned `UTF8_STRING` atom yields true with the buffer left
untouched. -/
theorem gettextprop_false_iff (utf8 : Nat) (reply : Option TextReply)
    (textNull : Bool) (textlen : Int) (mem : Nat → UInt8) :
    ((xutil_gettextprop utf8 reply textNull textlen mem).ret = false ↔
      textNull = true ∨ textlen = 0 ∨ reply = none ∨
        (∃ r, reply = some r ∧ (r.value_len = 0 ∨ r.format ≠ 8))) ∧
    (∀ r, reply = some r → textNull = false → textlen ≠ 0 →
      r.value_len ≠ 0 → r.format = 8 → r.type ≠ STRING → r.type ≠ utf8 →
      (xutil_gettextprop utf8 reply textNull textlen mem).ret = true ∧
      (xutil_gettextprop utf8 reply textNull textlen mem).mem = mem) := by
  cases textNull with
  | true => simp [xutil_gettextprop]
  | false =>
    by_cases h0 : textlen = 0
    · simp [xutil_gettextprop, h0]
    · cases reply with
      | none => simp [xutil_gettextprop, h0]
      | some r =>
        by_cases hv : r.value_len = 0 ∨ r.format ≠ 8
        · constructor
          · simp [xutil_gettextprop, h0, hv]
          · rintro r' hr' - - hlen hfmt - -
            injection hr' with hr'; subst hr'
            rcases hv with hv | hv
            · exact absurd hv hlen
            · exact absurd hfmt hv
        · have hret :
              (xutil_gettextprop utf8 (some r) false textlen mem).ret = true := by
            simp only [xutil_gettextprop, Bool.false_eq_true, if_false, if_neg h0,
              if_neg hv]
            split_ifs <;> rfl
          constructor
          · simp only [hret]
            simp [h0, hv]
          · rintro r' hr' - - - - hS hU
            injection hr' with hr'; subst hr'
            refine ⟨hret, ?_⟩
            have hty : ¬(r.type = STRING ∨ r.type = utf8) := by tauto
            simp only [xutil_gettextprop, Bool.false_eq_true, if_false, if_neg h0,
              if_neg hv, if_neg hty]

/-- C3 witness: a concrete accepted reply whose type (99) is neither
`STRING` nor the interned `UTF8_STRING` atom (340): the call returns true
and the buffer is untouched. -/
theorem gettextprop_false_iff_witness :
    (xutil_gettextprop 340 (some ⟨99, 8, 3, fun _ => 65⟩)
      false 10 (fun _ => 7)).ret = true ∧
    (xutil_gettextprop 340 (some ⟨99, 8, 3, fun _ => 65⟩)
      false 10 (fun _ => 7)).mem = (fun _ => 7) :=
  (gettextprop_false_iff 340 (some ⟨99, 8, 3, fun _ => 65⟩)
      false 10 (fun _ => 7)).2
    ⟨99, 8, 3, fun _ => 65⟩ rfl rfl (by decide) (by decide) rfl
    (by decide) (by decide)

/-- C4 counterexample: with a null buffer pointer the call does return
false, but the property-fetch request has already been issued (line 49
precedes the precheck on line 54); and a negative buffer length, which is
not positive, is not rejected at all: the call returns true. -/
theorem gettextprop_precheck_cex :
    ((xutil_gettextprop 340 none true 0 (fun _ => 7)).ret = false ∧
      (xutil_gettextprop 340 none true 0 (fun _ => 7)).requestIssued = true) ∧
    (xutil_gettextprop 340 (some ⟨31, 8, 3, fun _ => 65⟩)
      false (-1) (fun _ => 7)).ret = true := by
  refine ⟨⟨rfl, rfl⟩, ?_⟩
  decide

/-- C4 (amended): when the buffer pointer is null or the buffer length is
exactly zero, `xutil_gettextprop` returns false and leaves the buffer
untouched, but the property-fetch request has been issued unconditionally
before this check; a negative buffer length is not rejected by the
precheck. -/
theorem gettextprop_precheck_amended (utf8 : Nat) (reply : Option TextReply)
    (textNull : Bool) (textlen : Int) (mem : Nat → UInt8)
    (h : textNull = true ∨ textlen = 0) :
    (xutil_gettextprop utf8 reply textNull textlen mem).ret = false ∧
    (xutil_gettextprop utf8 reply textNull textlen mem).mem = mem ∧
    (xutil_gettextprop utf8 reply textNull textlen mem).requestIssued = true := by
  rcases h with h | h
  · subst h; exact ⟨rfl, rfl, rfl⟩
  · subst h
    cases textNull
    · simp [xutil_gettextprop]
    · exact ⟨rfl, rfl, rfl⟩

/-- C4 witness: the amended precheck theorem at a concrete input (null
buffer pointer, length 5). -/
theorem gettextprop_precheck_amended_witness :
    ((true : Bool) = true ∨ (5 : Int) = 0) ∧
    ((xutil_gettextprop 0 none true 5 (fun _ => 3)).ret = false ∧
      (xutil_gettextprop 0 none true 5 (fun _ => 3)).mem = (fun _ => 3) ∧
      (xutil_gettextprop 0 none true 5 (fun _ => 3)).requestIssued = true) :=
  ⟨Or.inl rfl,
    gettextprop_precheck_amended 0 none true 5 (fun _ => 3) (Or.inl rfl)⟩

/-- Unfolding lemma for the accepted branch in which the payload fits
(`value_len < textlen - 1`, line 74): copy the payload and null-terminate
right after it. -/
lemma gettextprop_eq_short (utf8 : Nat) (r : TextReply) (textlen : Int)
    (mem : Nat → UInt8) (h0 : textlen ≠ 0)
    (hlen : r.value_len ≠ 0) (hfmt : r.format = 8)
    (hty : r.type = STRING ∨ r.type = utf8)
    (hlt : (r.value_len : Int) < textlen - 1) :
    xutil_gettextprop utf8 (some r) false textlen mem =
      ⟨true, true, fun k =>
        if k = r.value_len then 0
        else if k < r.value_len then r.value k
        else mem k⟩ := by
  have hv : ¬(r.value_len = 0 ∨ r.format ≠ 8) := by
    push_neg; exact ⟨hlen, hfmt⟩
  simp only [xutil_gettextprop, Bool.false_eq_true, if_false, if_neg h0,
    if_neg hv, if_pos hty, if_pos hlt]

/-- Unfolding lemma for the accepted truncation branch
(`value_len >= textlen - 1`, lines 80-84): copy `(size_t)(textlen - 2)`
bytes, then store the terminator at `textlen - 1` (the store happens
after the copy, so it wins on overlap). -/
lemma gettextprop_eq_trunc (utf8 : Nat) (r : TextReply) (textlen : Int)
    (mem : Nat → UInt8) (h0 : textlen ≠ 0)
    (hlen : r.value_len ≠ 0) (hfmt : r.format = 8)
    (hty : r.type = STRING ∨ r.type = utf8)
    (hge : ¬((r.value_len : Int) < textlen - 1)) :
    xutil_gettextprop utf8 (some r) false textlen mem =
      ⟨true, true, fun k =>
        if (k : Int) = textlen - 1 then 0
        else if (k : Int) < (textlen - 2) % SIZE_T_MOD then r.value k
        else mem k⟩ := by
  have hv : ¬(r.value_len = 0 ∨ r.format ≠ 8) := by
    push_neg; exact ⟨hlen, hfmt⟩
  simp only [xutil_gettextprop, Bool.false_eq_true, if_false, if_neg h0,
    if_neg hv, if_pos hty, if_neg hge]

/-- For a buffer length in the `ssize_t` range with `textlen ≥ 2`, the
`size_t` conversion of the memcpy count `textlen - 2` is the identity. -/
lemma sizeT_emod_eq (textlen : Int) (h2 : 2 ≤ textlen)
    (hmax : textlen < 2 ^ 63) :
    (textlen - 2) % SIZE_T_MOD = textlen - 2 := by
  have h1 : (0 : Int) ≤ textlen - 2 := by linarith
  have h3 : textlen - 2 < SIZE_T_MOD := by
    have hp : (2 : Int) ^ 63 < 2 ^ 64 := by norm_num
    unfold SIZE_T_MOD
    linarith
  exact Int.emod_eq_of_lt h1 h3

/-- C10: on the truncation branch (`payload_length ≥ buffer_length - 1`,
`buffer_length ≥ 2`) the byte at index `buffer_length - 2` is left with
its prior contents, the copy fills indices `0 .. buffer_length - 3` with
payload bytes, and the terminator is written at `buffer_length - 1`. -/
theorem gettextprop_truncation_gap (utf8 : Nat) (r : TextReply)
    (textlen : Int) (mem : Nat → UInt8)
    (h2 : 2 ≤ textlen) (hmax : textlen < 2 ^ 63)
    (hlen : r.value_len ≠ 0) (hfmt : r.format = 8)
    (hty : r.type = STRING ∨ r.type = utf8)
    (htr : textlen - 1 ≤ (r.value_len : Int)) :
    (∀ k : Nat, (k : Int) = textlen - 2 →
      (xutil_gettextprop utf8 (some r) false textlen mem).mem k = mem k) ∧
    (∀ k : Nat, (k : Int) < textlen - 2 →
      (xutil_gettextprop utf8 (some r) false textlen mem).mem k = r.value k) ∧
    (∀ k : Nat, (k : Int) = textlen - 1 →
      (xutil_gettextprop utf8 (some r) false textlen mem).mem k = 0) := by
  have h0 : textlen ≠ 0 := by omega
  have hge : ¬((r.value_len : Int) < textlen - 1) := not_lt.mpr htr
  rw [gettextprop_eq_trunc utf8 r textlen mem h0 hlen hfmt hty hge]
  dsimp only
  refine ⟨?_, ?_, ?_⟩
  · intro k hk
    have hA : ¬((k : Int) = textlen - 1) := by omega
    have hB : ¬((k : Int) < (textlen - 2) % SIZE_T_MOD) := by
      rw [sizeT_emod_eq textlen h2 hmax]; omega
    rw [if_neg hA, if_neg hB]
  · intro k hk
    have hA : ¬((k : Int) = textlen - 1) := by omega
    have hB : (k : Int) < (textlen - 2) % SIZE_T_MOD := by
      rw [sizeT_emod_eq textlen h2 hmax]; omega
    rw [if_neg hA, if_pos hB]
  · intro k hk
    rw [if_pos hk]

/-- C10 witness: buffer length 4, payload length 9 (truncation branch):
index 2 keeps the prior byte 7, index 1 receives the payload byte 65,
index 3 receives the terminator. -/
theorem gettextprop_truncation_gap_witness :
    (xutil_gettextprop 340 (some ⟨31, 8, 9, fun _ => 65⟩)
      false 4 (fun _ => 7)).mem 2 = 7 ∧
    (xutil_gettextprop 340 (some ⟨31, 8, 9, fun _ => 65⟩)
      false 4 (fun _ => 7)).mem 1 = 65 ∧
    (xutil_gettextprop 340 (some ⟨31, 8, 9, fun _ => 65⟩)
      false 4 (fun _ => 7)).mem 3 = 0 :=
  ⟨(gettextprop_truncation_gap 340 ⟨31, 8, 9, fun _ => 65⟩ 4 (fun _ => 7)
      (by norm_num) (by norm_num) (by decide) rfl (Or.inl rfl)
      (by norm_num)).1 2 (by norm_num),
   (gettextprop_truncation_gap 340 ⟨31, 8, 9, fun _ => 65⟩ 4 (fun _ => 7)
      (by norm_num) (by norm_num) (by decide) rfl (Or.inl rfl)
      (by norm_num)).2.1 1 (by norm_num),
   (gettextprop_truncation_gap 340 ⟨31, 8, 9, fun _ => 65⟩ 4 (fun _ => 7)
      (by norm_num) (by norm_num) (by decide) rfl (Or.inl rfl)
      (by norm_num)).2.2 3 (by norm_num)⟩

/-- C1 counterexample.  First conjunct: a successful call (return true)
with buffer length 4 whose reply type 99 is neither `STRING` nor the
`UTF8_STRING` atom leaves the buffer untouched, so the byte at index
`buffer_length - 1 = 3` is the prior byte 7, not zero.  Second conjunct:
with buffer length 1 and an accepted `STRING` reply the truncation branch
passes `(size_t)(1 - 2) = 2^64 - 1` to `memcpy`, so the byte at index 1,
which is `≥ buffer_length`, is overwritten with the payload byte 1. -/
theorem gettextprop_safety_cex :
    ((xutil_gettextprop 340 (some ⟨99, 8, 3, fun _ => 65⟩)
        false 4 (fun _ => 7)).ret = true ∧
      (xutil_gettextprop 340 (some ⟨99, 8, 3, fun _ => 65⟩)
        false 4 (fun _ => 7)).mem 3 = 7) ∧
    ((xutil_gettextprop 340 (some ⟨31, 8, 1, fun _ => 1⟩)
        false 1 (fun _ => 7)).ret = true ∧
      (xutil_gettextprop 340 (some ⟨31, 8, 1, fun _ => 1⟩)
        false 1 (fun _ => 7)).mem 1 = 1) := by
  refine ⟨⟨rfl, rfl⟩, rfl, ?_⟩
  decide

/-- C1 (amended): for `buffer_length ≥ 2` (within the `ssize_t` range) and
an accepted reply that is actually decoded (format 8, non-empty, type
`STRING` or `UTF8_STRING`), the call returns true, a zero terminator is
written at index `min (payload_length) (buffer_length - 1)`, no byte at
an index `≥ buffer_length` is written, and when
`payload_length ≥ buffer_length` every byte below the terminator is
either a payload byte at an index `< payload_length` (initialized wire
data) or the buffer's prior contents — never uninitialized input. -/
theorem gettextprop_buffer_safety (utf8 : Nat) (r : TextReply)
    (textlen : Int) (mem : Nat → UInt8)
    (h2 : 2 ≤ textlen) (hmax : textlen < 2 ^ 63)
    (hlen : r.value_len ≠ 0) (hfmt : r.format = 8)
    (hty : r.type = STRING ∨ r.type = utf8) :
    (xutil_gettextprop utf8 (some r) false textlen mem).ret = true ∧
    (∀ k : Nat, (k : Int) = min (r.value_len : Int) (textlen - 1) →
      (xutil_gettextprop utf8 (some r) false textlen mem).mem k = 0) ∧
    (∀ k : Nat, textlen ≤ (k : Int) →
      (xutil_gettextprop utf8 (some r) false textlen mem).mem k = mem k) ∧
    (textlen ≤ (r.value_len : Int) →
      ∀ k : Nat, (k : Int) < textlen - 1 →
        ((xutil_gettextprop utf8 (some r) false textlen mem).mem k
            = r.value k ∧ k < r.value_len) ∨
        (xutil_gettextprop utf8 (some r) false textlen mem).mem k = mem k) := by
  have h0 : textlen ≠ 0 := by omega
  by_cases hlt : (r.value_len : Int) < textlen - 1
  · rw [gettextprop_eq_short utf8 r textlen mem h0 hlen hfmt hty hlt]
    dsimp only
    refine ⟨rfl, ?_, ?_, ?_⟩
    · intro k hk
      have hmin : min (r.value_len : Int) (textlen - 1) = (r.value_len : Int) :=
        min_eq_left (le_of_lt hlt)
      rw [hmin] at hk
      have hk' : k = r.value_len := by omega
      rw [if_pos hk']
    · intro k hk
      have hA : ¬(k = r.value_len) := by omega
      have hB : ¬(k < r.value_len) := by omega
      rw [if_neg hA, if_neg hB]
    · intro hbig
      omega
  · rw [gettextprop_eq_trunc utf8 r textlen mem h0 hlen hfmt hty hlt]
    dsimp only
    have hge : textlen - 1 ≤ (r.value_len : Int) := not_lt.mp hlt
    refine ⟨rfl, ?_, ?_, ?_⟩
    · intro k hk
      have hmin : min (r.value_len : Int) (textlen - 1) = textlen - 1 :=
        min_eq_right hge
      rw [hmin] at hk
      rw [if_pos hk]
    · intro k hk
      have hA : ¬((k : Int) = textlen - 1) := by omega
      have hB : ¬((k : Int) < (textlen - 2) % SIZE_T_MOD) := by
        rw [sizeT_emod_eq textlen h2 hmax]; omega
      rw [if_neg hA, if_neg hB]
    · intro _ k hk
      have hA : ¬((k : Int) = textlen - 1) := by omega
      by_cases hB : (k : Int) < (textlen - 2) % SIZE_T_MOD
      · left
        rw [if_neg hA, if_pos hB]
        refine ⟨rfl, ?_⟩
        rw [sizeT_emod_eq textlen h2 hmax] at hB
        omega
      · right
        rw [if_neg hA, if_neg hB]

/-- C1 witness: buffer length 4, payload length 5 (truncation branch):
the call returns true and the terminator index `min 5 3 = 3` holds
zero. -/
theorem gettextprop_buffer_safety_witness :
    (xutil_gettextprop 340 (some ⟨31, 8, 5, fun _ => 65⟩)
      false 4 (fun _ => 7)).ret = true ∧
    (xutil_gettextprop 340 (some ⟨31, 8, 5, fun _ => 65⟩)
      false 4 (fun _ => 7)).mem 3 = 0 :=
  ⟨(gettextprop_buffer_safety 340 ⟨31, 8, 5, fun _ => 65⟩ 4 (fun _ => 7)
      (by norm_num) (by norm_num) (by decide) rfl (Or.inl rfl)).1,
   (gettextprop_buffer_safety 340 ⟨31, 8, 5, fun _ => 65⟩ 4 (fun _ => 7)
      (by norm_num) (by norm_num) (by decide) rfl (Or.inl rfl)).2.1 3
      (by norm_num)⟩

/-- C2 counterexample: with buffer length 1 and an accepted `STRING`
reply of length 2, the truncation branch is taken, whose claimed copy of
`buffer_length - 2` payload bytes is impossible (that quantity is `-1`):
the `memcpy` count wraps to `2^64 - 1` and the byte at index 3 — far
outside any copy of `-1` (or zero) bytes followed by a terminator at
index 0 — is overwritten from 9 to the payload byte 2, while the call
returns true. -/
theorem gettextprop_copy_cex :
    (xutil_gettextprop 340 (some ⟨31, 8, 2, fun _ => 2⟩)
      false 1 (fun _ => 9)).ret = true ∧
    (xutil_gettextprop 340 (some ⟨31, 8, 2, fun _ => 2⟩)
      false 1 (fun _ => 9)).mem 3 = 2 := by
  refine ⟨rfl, ?_⟩
  decide

/-- C2 (amended): for `buffer_length ≥ 2` (within the `ssize_t` range) and
an accepted, decoded reply: if `payload_length < buffer_length - 1` then
exactly the `payload_length` payload bytes are copied verbatim, a null
terminator follows them immediately, and every byte past the terminator
keeps its prior value; otherwise exactly `buffer_length - 2` payload
bytes are copied verbatim, the terminator is placed at
`buffer_length - 1`, and every other byte (including the gap at
`buffer_length - 2`) keeps its prior value. -/
theorem gettextprop_copy_exact (utf8 : Nat) (r : TextReply)
    (textlen : Int) (mem : Nat → UInt8)
    (h2 : 2 ≤ textlen) (hmax : textlen < 2 ^ 63)
    (hlen : r.value_len ≠ 0) (hfmt : r.format = 8)
    (hty : r.type = STRING ∨ r.type = utf8) :
    ((r.value_len : Int) < textlen - 1 →
      (∀ k : Nat, k < r.value_len →
        (xutil_gettextprop utf8 (some r) false textlen mem).mem k
          = r.value k) ∧
      (xutil_gettextprop utf8 (some r) false textlen mem).mem r.value_len
        = 0 ∧
      (∀ k : Nat, r.value_len < k →
        (xutil_gettextprop utf8 (some r) false textlen mem).mem k
          = mem k)) ∧
    (textlen - 1 ≤ (r.value_len : Int) →
      (∀ k : Nat, (k : Int) < textlen - 2 →
        (xutil_gettextprop utf8 (some r) false textlen mem).mem k
          = r.value k) ∧
      (∀ k : Nat, (k : Int) = textlen - 1 →
        (xutil_gettextprop utf8 (some r) false textlen mem).mem k = 0) ∧
      (∀ k : Nat, textlen - 2 ≤ (k : Int) → (k : Int) ≠ textlen - 1 →
        (xutil_gettextprop utf8 (some r) false textlen mem).mem k
          = mem k)) := by
  have h0 : textlen ≠ 0 := by omega
  constructor
  · intro hlt
    rw [gettextprop_eq_short utf8 r textlen mem h0 hlen hfmt hty hlt]
    dsimp only
    refine ⟨?_, ?_, ?_⟩
    · intro k hk
      have hA : ¬(k = r.value_len) := by omega
      rw [if_neg hA, if_pos hk]
    · rw [if_pos rfl]
    · intro k hk
      have hA : ¬(k = r.value_len) := by omega
      have hB : ¬(k < r.value_len) := by omega
      rw [if_neg hA, if_neg hB]
  · intro htr
    have hge : ¬((r.value_len : Int) < textlen - 1) := not_lt.mpr htr
    rw [gettextprop_eq_trunc utf8 r textlen mem h0 hlen hfmt hty hge]
    dsimp only
    refine ⟨?_, ?_, ?_⟩
    · intro k hk
      have hA : ¬((k : Int) = textlen - 1) := by omega
      have hB : (k : Int) < (textlen - 2) % SIZE_T_MOD := by
        rw [sizeT_emod_eq textlen h2 hmax]; omega
      rw [if_neg hA, if_pos hB]
    · intro k hk
      rw [if_pos hk]
    · intro k hk hk'
      have hB : ¬((k : Int) < (textlen - 2) % SIZE_T_MOD) := by
        rw [sizeT_emod_eq textlen h2 hmax]; omega
      rw [if_neg hk', if_neg hB]

/-- C2 witness: buffer length 16, payload length 2 (short branch): bytes
0 and 1 receive the payload, index 2 the terminator, index 5 keeps its
prior value. -/
theorem gettextprop_copy_exact_witness :
    (xutil_gettextprop 340 (some ⟨31, 8, 2, fun _ => 65⟩)
      false 16 (fun _ => 7)).mem 1 = 65 ∧
    (xutil_gettextprop 340 (some ⟨31, 8, 2, fun _ => 65⟩)
      false 16 (fun _ => 7)).mem 2 = 0 ∧
    (xutil_gettextprop 340 (some ⟨31, 8, 2, fun _ => 65⟩)
      false 16 (fun _ => 7)).mem 5 = 7 :=
  ⟨((gettextprop_copy_exact 340 ⟨31, 8, 2, fun _ => 65⟩ 16 (fun _ => 7)
      (by norm_num) (by norm_num) (by decide) rfl (Or.inl rfl)).1
      (by norm_num)).1 1 (by norm_num),
   ((gettextprop_copy_exact 340 ⟨31, 8, 2, fun _ => 65⟩ 16 (fun _ => 7)
      (by norm_num) (by norm_num) (by decide) rfl (Or.inl rfl)).1
      (by norm_num)).2.1,
   ((gettextprop_copy_exact 340 ⟨31, 8, 2, fun _ => 65⟩ 16 (fun _ => 7)
      (by norm_num) (by norm_num) (by decide) rfl (Or.inl rfl)).1
      (by norm_num)).2.2 5 (by norm_num)⟩

/-- A get-property reply as seen by `xutil_get_transient_for_hint`: the
type atom, the format, the reply `length` field (in 32-bit units) and
the first 32-bit unit of the payload. -/
structure WindowReply where
  type : Nat
  format : Nat
  length : Nat
  value0 : Nat

/-- Result of `xutil_get_transient_for_hint`: the window stored through
`prop_win` and the returned boolean. -/
structure TransientResult where
  prop_win : Nat
  ret : Bool

/-- `xutil_get_transient_for_hint` (common/xutil.c, lines 136-164):
fetch `WM_TRANSIENT_FOR`; on an absent reply, or type ≠ `WINDOW`, or
format ≠ 32, or zero length, store `XCB_NONE` and return false;
otherwise store the first 32-bit unit of the payload and return true. -/
def xutil_get_transient_for_hint (reply : Option WindowReply) :
    TransientResult :=
  match reply with
  | none => ⟨XCB_NONE, false⟩
  | some r =>
    if r.type ≠ WINDOW ∨ r.format ≠ 32 ∨ r.length = 0 then ⟨XCB_NONE, false⟩
    else ⟨r.value0, true⟩

/-- C6: `xutil_get_transient_for_hint` stores the no-window sentinel and
returns false exactly on an absent reply, a type other than `WINDOW`, a
format other than 32, or a zero length; otherwise it stores the first
32-bit unit of the payload and returns true. -/
theorem get_transient_for_hint_spec (reply : Option WindowReply) :
    ((reply = none ∨
        ∃ r, reply = some r ∧
          (r.type ≠ WINDOW ∨ r.format ≠ 32 ∨ r.length = 0)) →
      xutil_get_transient_for_hint reply = ⟨XCB_NONE, false⟩) ∧
    (∀ r, reply = some r → r.type = WINDOW → r.format = 32 →
      r.length ≠ 0 →
      xutil_get_transient_for_hint reply = ⟨r.value0, true⟩) := by
  constructor
  · rintro (h | ⟨r, hr, h⟩)
    · subst h; rfl
    · subst hr
      simp only [xutil_get_transient_for_hint, if_pos h]
  · rintro r hr hty hfmt hlen
    subst hr
    have h : ¬(r.type ≠ WINDOW ∨ r.format ≠ 32 ∨ r.length = 0) := by
      push_neg; exact ⟨hty, hfmt, hlen⟩
    simp only [xutil_get_transient_for_hint, if_neg h]

/-- C6 witness: a valid `WINDOW`/format-32 reply of length 1 with first
unit 4242 yields (4242, true); a format-8 reply yields (`XCB_NONE`,
false). -/
theorem get_transient_for_hint_spec_witness :
    xutil_get_transient_for_hint (some ⟨33, 32, 1, 4242⟩)
      = ⟨4242, true⟩ ∧
    xutil_get_transient_for_hint (some ⟨33, 8, 1, 4242⟩)
      = ⟨XCB_NONE, false⟩ :=
  ⟨(get_transient_for_hint_spec (some ⟨33, 32, 1, 4242⟩)).2
      ⟨33, 32, 1, 4242⟩ rfl rfl rfl (by decide),
   (get_transient_for_hint_spec (some ⟨33, 8, 1, 4242⟩)).1
      (Or.inr ⟨⟨33, 8, 1, 4242⟩, rfl, Or.inr (Or.inl (by decide))⟩)⟩

/-- C-string length within a byte list: the number of bytes before the
first null byte, or `none` when the list holds no null byte — in which
case the C `strlen` at the corresponding pointer would keep scanning
past the end of the underlying buffer. -/
def cstrlen : List UInt8 → Option Nat
  | [] => none
  | b :: bs => if b = 0 then some 0 else (cstrlen bs).map (· + 1)

/-- A get-property reply as seen by `xutil_get_class_hint`: the type
atom, the format and the payload bytes (`value_len` bytes, here the list
length). -/
structure ClassReply where
  type : Nat
  format : Nat
  value : List UInt8

/-- Outcome of `xutil_get_class_hint`: `noHint` models the NULL return,
`oobRead` models an `a_strlen` scan that runs past the end of the reply
buffer (reading memory the reply does not own), and `hint` carries the
two strings copied by `strndup`. -/
inductive ClassHintOut where
  | noHint
  | oobRead
  | hint (res_name res_class : List UInt8)
deriving DecidableEq

/-- `xutil_get_class_hint` (common/xutil.c, lines 191-226): validate the
reply (present, type `STRING`, format 8 — the length is not checked),
then `len_name = a_strlen(data)`, `len_class = a_strlen(data + len_name
+ 1)`, and copy the two substrings with `strndup`.  Each `a_strlen` scan
that finds no null byte inside the reply runs past the reply buffer. -/
def xutil_get_class_hint (reply : Option ClassReply) : ClassHintOut :=
  match reply with
  | none => .noHint
  | some r =>
    if r.type ≠ STRING ∨ r.format ≠ 8 then .noHint
    else
      match cstrlen r.value with
      | none => .oobRead
      | some len_name =>
        match cstrlen (r.value.drop (len_name + 1)) with
        | none => .oobRead
        | some len_class =>
          .hint (r.value.take len_name)
            ((r.value.drop (len_name + 1)).take len_class)

/-- C5 counterexample: an accepted `WM_CLASS` reply whose one-byte
payload `[65]` holds no null byte makes the first `a_strlen` scan run
past the reply buffer — the call is not caller-safe, contradicting the
"no read past the reply" part of the claim. -/
theorem get_class_hint_cex :
    xutil_get_class_hint (some ⟨31, 8, [65]⟩) = ClassHintOut.oobRead := rfl

/-- C5 (amended): for every accepted `WM_CLASS` reply whose payload
contains the two needed null terminators, with `n1` the C-string length
of the payload start, the hint's instance string is the first `n1`
payload bytes and its class string is the C-string starting at offset
`n1 + 1`; but when the payload holds no null byte, or the second string
has no terminator inside the reply, the scan reads past the reply
buffer (the code is not caller-safe there). -/
theorem get_class_hint_parse (r : ClassReply)
    (hty : r.type = STRING) (hfmt : r.format = 8) :
    (∀ n1 n2 : Nat, cstrlen r.value = some n1 →
      cstrlen (r.value.drop (n1 + 1)) = some n2 →
      xutil_get_class_hint (some r) =
        ClassHintOut.hint (r.value.take n1)
          ((r.value.drop (n1 + 1)).take n2)) ∧
    (cstrlen r.value = none →
      xutil_get_class_hint (some r) = ClassHintOut.oobRead) ∧
    (∀ n1 : Nat, cstrlen r.value = some n1 →
      cstrlen (r.value.drop (n1 + 1)) = none →
      xutil_get_class_hint (some r) = ClassHintOut.oobRead) := by
  have h : ¬(r.type ≠ STRING ∨ r.format ≠ 8) := by
    push_neg; exact ⟨hty, hfmt⟩
  refine ⟨?_, ?_, ?_⟩
  · intro n1 n2 h1 h2
    simp only [xutil_get_class_hint, if_neg h, h1, h2]
  · intro h1
    simp only [xutil_get_class_hint, if_neg h, h1]
  · intro n1 h1 h2
    simp only [xutil_get_class_hint, if_neg h, h1, h2]

/-- C5 witness: payload `"foo\0Bar\0"` yields the hint
(instance `"foo"`, class `"Bar"`). -/
theorem get_class_hint_parse_witness :
    xutil_get_class_hint (some ⟨31, 8, [102, 111, 111, 0, 66, 97, 114, 0]⟩)
      = ClassHintOut.hint [102, 111, 111] [66, 97, 114] :=
  (get_class_hint_parse ⟨31, 8, [102, 111, 111, 0, 66, 97, 114, 0]⟩
      rfl rfl).1 3 3 (by decide) (by decide)

/-- The fixed error-label table (common/xutil.c, lines 244-265), indexed
by error code. -/
def xutil_error_label : List String :=
  ["Success", "BadRequest", "BadValue", "BadWindow", "BadPixmap",
   "BadAtom", "BadCursor", "BadFont", "BadMatch", "BadDrawable",
   "BadAccess", "BadAlloc", "BadColor", "BadGC", "BadIDChoice",
   "BadName", "BadLength", "BadImplementation"]

/-- The fixed request-label table (common/xutil.c, lines 267-398),
indexed by major opcode. -/
def xutil_request_label : List String :=
  ["None", "CreateWindow", "ChangeWindowAttributes", "GetWindowAttributes",
   "DestroyWindow", "DestroySubwindows", "ChangeSaveSet", "ReparentWindow",
   "MapWindow", "MapSubwindows", "UnmapWindow", "UnmapSubwindows",
   "ConfigureWindow", "CirculateWindow", "GetGeometry", "QueryTree",
   "InternAtom", "GetAtomName", "ChangeProperty", "DeleteProperty",
   "GetProperty", "ListProperties", "SetSelectionOwner", "GetSelectionOwner",
   "ConvertSelection", "SendEvent", "GrabPointer", "UngrabPointer",
   "GrabButton", "UngrabButton", "ChangeActivePointerGrab", "GrabKeyboard",
   "UngrabKeyboard", "GrabKey", "UngrabKey", "AllowEvents",
   "GrabServer", "UngrabServer", "QueryPointer", "GetMotionEvents",
   "TranslateCoords", "WarpPointer", "SetInputFocus", "GetInputFocus",
   "QueryKeymap", "OpenFont", "CloseFont", "QueryFont",
   "QueryTextExtents", "ListFonts", "ListFontsWithInfo", "SetFontPath",
   "GetFontPath", "CreatePixmap", "FreePixmap", "CreateGC",
   "ChangeGC", "CopyGC", "SetDashes", "SetClipRectangles",
   "FreeGC", "ClearArea", "CopyArea", "CopyPlane",
   "PolyPoint", "PolyLine", "PolySegment", "PolyRectangle",
   "PolyArc", "FillPoly", "PolyFillRectangle", "PolyFillArc",
   "PutImage", "GetImage", "PolyText", "PolyText",
   "ImageText", "ImageText", "CreateColormap", "FreeColormap",
   "CopyColormapAndFree", "InstallColormap", "UninstallColormap",
   "ListInstalledColormaps", "AllocColor", "AllocNamedColor",
   "AllocColorCells", "AllocColorPlanes", "FreeColors", "StoreColors",
   "StoreNamedColor", "QueryColors", "LookupColor", "CreateCursor",
   "CreateGlyphCursor", "FreeCursor", "RecolorCursor", "QueryBestSize",
   "QueryExtension", "ListExtensions", "ChangeKeyboardMapping",
   "GetKeyboardMapping", "ChangeKeyboardControl", "GetKeyboardControl",
   "Bell", "ChangePointerControl", "GetPointerControl", "SetScreenSaver",
   "GetScreenSaver", "ChangeHosts", "ListHosts", "SetAccessControl",
   "SetCloseDownMode", "KillClient", "RotateProperties", "ForceScreenSaver",
   "SetPointerMapping", "GetPointerMapping", "SetModifierMapping",
   "GetModifierMapping", "major 120", "major 121", "major 122",
   "major 123", "major 124", "major 125", "major 126", "NoOperation"]

/-- A raw X generic error as consumed by `xutil_get_error`: its
`response_type` byte, its `error_code` byte, and the byte at offset 10
of the 32-byte record, from which the request major opcode is read
(`*((uint8_t *) e + 10)`, line 414). -/
structure RawError where
  response_type : Nat
  error_code : Nat
  byte10 : Nat

/-- The structured error record built by `xutil_get_error`. -/
structure XutilError where
  request_code : Nat
  request_label : String
  error_label : String

/-- `xutil_get_error` (common/xutil.c, lines 400-431): a non-zero
`response_type` yields no record; otherwise the request label comes from
the request table when the opcode is below the table size and is the
decimal text of the opcode otherwise, and likewise for the error label
against the error table. -/
def xutil_get_error (e : RawError) : Option XutilError :=
  if e.response_type ≠ 0 then none
  else some
    { request_code := e.byte10
      request_label :=
        if xutil_request_label.length ≤ e.byte10 then toString e.byte10
        else xutil_request_label.getD e.byte10 ""
      error_label :=
        if xutil_error_label.length ≤ e.error_code then toString e.error_code
        else xutil_error_label.getD e.error_code "" }

/-- C7: for an accepted raw error (zero `response_type`), error codes
0..17 yield the table label and codes 18..255 the decimal text; the
request label is looked up in the 128-entry request table when the
opcode read from byte offset 10 is below 128, and is the decimal text
of the opcode otherwise; in particular opcode 1 yields "CreateWindow",
16 "InternAtom", 127 "NoOperation" and 200 "200". -/
theorem xutil_get_error_labels :
    xutil_error_label.length = 18 ∧
    xutil_request_label.length = 128 ∧
    (∀ c b : Nat, c ≤ 17 →
      (xutil_get_error ⟨0, c, b⟩).map XutilError.error_label
        = some (xutil_error_label.getD c "")) ∧
    (∀ c b : Nat, 18 ≤ c → c ≤ 255 →
      (xutil_get_error ⟨0, c, b⟩).map XutilError.error_label
        = some (toString c)) ∧
    (∀ c b : Nat, b ≤ 127 →
      (xutil_get_error ⟨0, c, b⟩).map XutilError.request_label
        = some (xutil_request_label.getD b "")) ∧
    (∀ c b : Nat, 128 ≤ b → b ≤ 255 →
      (xutil_get_error ⟨0, c, b⟩).map XutilError.request_label
        = some (toString b)) ∧
    (xutil_get_error ⟨0, 0, 1⟩).map XutilError.request_label
      = some "CreateWindow" ∧
    (xutil_get_error ⟨0, 0, 16⟩).map XutilError.request_label
      = some "InternAtom" ∧
    (xutil_get_error ⟨0, 0, 127⟩).map XutilError.request_label
      = some "NoOperation" ∧
    (xutil_get_error ⟨0, 0, 200⟩).map XutilError.request_label
      = some "200" := by
  have hE : xutil_error_label.length = 18 := rfl
  have hR : xutil_request_label.length = 128 := rfl
  refine ⟨hE, hR, ?_, ?_, ?_, ?_, rfl, rfl, rfl, rfl⟩
  · intro c b hc
    simp only [xutil_get_error, ne_eq, not_true_eq_false, if_false, hE,
      Option.map_some]
    rw [if_neg (by omega : ¬(18 ≤ c))]
    rfl
  · intro c b hc _
    simp only [xutil_get_error, ne_eq, not_true_eq_false, if_false, hE,
      Option.map_some]
    rw [if_pos hc]
    rfl
  · intro c b hb
    simp only [xutil_get_error, ne_eq, not_true_eq_false, if_false, hR,
      Option.map_some]
    rw [if_neg (by omega : ¬(128 ≤ b))]
    rfl
  · intro c b hb _
    simp only [xutil_get_error, ne_eq, not_true_eq_false, if_false, hR,
      Option.map_some]
    rw [if_pos hb]
    rfl

/-- C7 witness: error code 3 maps to "BadWindow", error code 42 to
"42". -/
theorem xutil_get_error_labels_witness :
    (xutil_get_error ⟨0, 3, 16⟩).map XutilError.error_label
      = some "BadWindow" ∧
    (xutil_get_error ⟨0, 42, 16⟩).map XutilError.error_label
      = some "42" :=
  ⟨(xutil_get_error_labels.2.2.1 3 16 (by norm_num)).trans rfl,
   (xutil_get_error_labels.2.2.2.1 42 16 (by norm_num) (by norm_num)).trans
     rfl⟩

/-- A get-modifier-mapping reply: `keycodes_per_modifier` and the keycode
array (row-major, 8 rows; the cell in row `i`, column `j` is read at
index `i * keycodes_per_modifier + j`). -/
structure ModmapReply where
  keycodes_per_modifier : Nat
  keycodes : Nat → UInt8

/-- One iteration of the scan loop body of `xutil_getlockmask`
(common/xutil.c, lines 110-123) on the cell `c = (i, kc)` in modifier
row `i` holding keycode `kc`: an `else if` chain that assigns
`1 << i` through the first of the (num, shift, caps) output pointers
that is non-null and whose lock keycode equals `kc`. -/
def lockStep (kcNum kcShift kcCaps : UInt8)
    (numPtr shiftPtr capsPtr : Bool)
    (st : Nat × Nat × Nat) (c : Nat × UInt8) : Nat × Nat × Nat :=
  if numPtr ∧ c.2 = kcNum then (2 ^ c.1, st.2.1, st.2.2)
  else if shiftPtr ∧ c.2 = kcShift then (st.1, 2 ^ c.1, st.2.2)
  else if capsPtr ∧ c.2 = kcCaps then (st.1, st.2.1, 2 ^ c.1)
  else st

/-- `xutil_getlockmask` (common/xutil.c, lines 92-126).  The
modifier-mapping reply is dereferenced without a null check
(`xcb_get_modifier_mapping_keycodes(modmap_r)` on line 106 and
`modmap_r->keycodes_per_modifier` on line 109), so an absent reply makes
the call crash; this is the `none` result.  `kcNum`, `kcShift`, `kcCaps`
are the keycodes `xcb_key_symbols_get_keycode` returns for
`XK_Num_Lock`, `XK_Shift_Lock` and `XK_Caps_Lock`; `numPtr` etc. model
the non-nullness of the output pointers and `num0` etc. the values they
initially point at. -/
def xutil_getlockmask (reply : Option ModmapReply)
    (kcNum kcShift kcCaps : UInt8) (numPtr shiftPtr capsPtr : Bool)
    (num0 shift0 caps0 : Nat) : Option (Nat × Nat × Nat) :=
  match reply with
  | none => none
  | some r =>
    some ((List.range 8).foldl
      (fun st i =>
        (List.range r.keycodes_per_modifier).foldl
          (fun st j =>
            lockStep kcNum kcShift kcCaps numPtr shiftPtr capsPtr st
              (i, r.keycodes (i * r.keycodes_per_modifier + j)))
          st)
      (num0, shift0, caps0))

/-- C8: evaluating `xutil_getlockmask` at an absent modifier-mapping
reply: the call does not return a typed failure — it dereferences the
null reply (modelled by the `none` result, a crash), contradicting the
claim that no operation crashes on a failed round trip. -/
theorem getlockmask_null_reply_crash :
    xutil_getlockmask none 1 2 3 true true true 4 5 6 = none := rfl

/-- The modifier cells scanned by `xutil_getlockmask`, in row-major scan
order, each carrying its modifier row index and its keycode. -/
def lockCells (r : ModmapReply) : List (Nat × UInt8) :=
  (List.range 8).flatMap (fun i =>
    (List.range r.keycodes_per_modifier).map
      (fun j => (i, r.keycodes (i * r.keycodes_per_modifier + j))))

/-- The value a single lock output holds after the scan: untouched when
its pointer is null or no cell carries the lock's keycode; otherwise
`1 << i` for the row `i` of the last matching cell in row-major order. -/
def lastLockMask (cells : List (Nat × UInt8)) (kc : UInt8) (ptr : Bool)
    (init : Nat) : Nat :=
  if ptr then
    match (cells.filter (fun c => c.2 == kc)).getLast? with
    | some c => 2 ^ c.1
    | none => init
  else init

/-- Folding over a flattened list of lists is the nested fold. -/
lemma foldl_flat {α β γ : Type} (l : List α) (f : α → List β)
    (g : γ → β → γ) (init : γ) :
    (l.flatMap f).foldl g init
      = l.foldl (fun st a => (f a).foldl g st) init := by
  induction l generalizing init with
  | nil => rfl
  | cons a t ih =>
    rw [List.flatMap_cons, List.foldl_append, List.foldl_cons, ih]

/-- `xutil_getlockmask` on a present reply is the fold of the loop body
over the row-major cell list. -/
lemma getlockmask_eq_cells (r : ModmapReply)
    (kcNum kcShift kcCaps : UInt8) (numPtr shiftPtr capsPtr : Bool)
    (num0 shift0 caps0 : Nat) :
    xutil_getlockmask (some r) kcNum kcShift kcCaps numPtr shiftPtr capsPtr
        num0 shift0 caps0
      = some ((lockCells r).foldl
          (lockStep kcNum kcShift kcCaps numPtr shiftPtr capsPtr)
          (num0, shift0, caps0)) := by
  simp only [xutil_getlockmask, lockCells, foldl_flat, List.foldl_map]

/-- A fold that overwrites on every matching element computes the mask of
the last matching element. -/
lemma foldl_overwrite_eq_getLast (cells : List (Nat × UInt8)) (kc : UInt8)
    (init : Nat) :
    cells.foldl (fun v c => if c.2 = kc then 2 ^ c.1 else v) init
      = match (cells.filter (fun c => c.2 == kc)).getLast? with
        | some c => 2 ^ c.1
        | none => init := by
  induction cells using List.reverseRecOn with
  | nil => rfl
  | append_singleton t c ih =>
    rw [List.foldl_append, List.foldl_cons, List.foldl_nil,
      List.filter_append, ih]
    by_cases h : c.2 = kc
    · rw [if_pos h]
      have hf : List.filter (fun c : Nat × UInt8 => c.2 == kc) [c] = [c] := by
        simp [List.filter_cons, h]
      rw [hf, List.getLast?_concat]
    · rw [if_neg h]
      have hf : List.filter (fun c : Nat × UInt8 => c.2 == kc) [c] = [] := by
        simp [List.filter_cons, h]
      rw [hf, List.append_nil]

/-- The num component of the scan is an independent overwrite fold (the
`else if` chain touches `*numlockmask` exactly on its first branch). -/
lemma foldl_lockStep_fst (kcNum kcShift kcCaps : UInt8)
    (numPtr shiftPtr capsPtr : Bool) (cells : List (Nat × UInt8))
    (st : Nat × Nat × Nat) :
    (cells.foldl (lockStep kcNum kcShift kcCaps numPtr shiftPtr capsPtr)
        st).1
      = if numPtr then
          cells.foldl (fun v c => if c.2 = kcNum then 2 ^ c.1 else v) st.1
        else st.1 := by
  induction cells generalizing st with
  | nil => cases numPtr <;> rfl
  | cons c t ih =>
    rw [List.foldl_cons, List.foldl_cons, ih]
    cases numPtr with
    | false =>
      simp only [Bool.false_eq_true, if_false]
      unfold lockStep
      split_ifs <;> simp_all
    | true =>
      rw [if_pos rfl, if_pos rfl]
      congr 1
      unfold lockStep
      split_ifs <;> simp_all

/-- The shift component of the scan is an independent overwrite fold,
provided the Num Lock and Shift Lock keycodes differ (a cell equal to
both is taken by the num branch of the `else if` chain). -/
lemma foldl_lockStep_snd (kcNum kcShift kcCaps : UInt8)
    (numPtr shiftPtr capsPtr : Bool) (hns : kcNum ≠ kcShift)
    (cells : List (Nat × UInt8)) (st : Nat × Nat × Nat) :
    (cells.foldl (lockStep kcNum kcShift kcCaps numPtr shiftPtr capsPtr)
        st).2.1
      = if shiftPtr then
          cells.foldl (fun v c => if c.2 = kcShift then 2 ^ c.1 else v)
            st.2.1
        else st.2.1 := by
  induction cells generalizing st with
  | nil => cases shiftPtr <;> rfl
  | cons c t ih =>
    rw [List.foldl_cons, List.foldl_cons, ih]
    cases shiftPtr with
    | false =>
      simp only [Bool.false_eq_true, if_false]
      unfold lockStep
      split_ifs <;> simp_all
    | true =>
      rw [if_pos rfl, if_pos rfl]
      congr 1
      unfold lockStep
      split_ifs <;> simp_all

/-- The caps component of the scan is an independent overwrite fold,
provided the Caps Lock keycode differs from the Num Lock and Shift Lock
keycodes. -/
lemma foldl_lockStep_thd (kcNum kcShift kcCaps : UInt8)
    (numPtr shiftPtr capsPtr : Bool) (hnc : kcNum ≠ kcCaps)
    (hsc : kcShift ≠ kcCaps)
    (cells : List (Nat × UInt8)) (st : Nat × Nat × Nat) :
    (cells.foldl (lockStep kcNum kcShift kcCaps numPtr shiftPtr capsPtr)
        st).2.2
      = if capsPtr then
          cells.foldl (fun v c => if c.2 = kcCaps then 2 ^ c.1 else v)
            st.2.2
        else st.2.2 := by
  induction cells generalizing st with
  | nil => cases capsPtr <;> rfl
  | cons c t ih =>
    rw [List.foldl_cons, List.foldl_cons, ih]
    cases capsPtr with
    | false =>
      simp only [Bool.false_eq_true, if_false]
      unfold lockStep
      split_ifs <;> simp_all
    | true =>
      rw [if_pos rfl, if_pos rfl]
      congr 1
      unfold lockStep
      split_ifs <;> simp_all

/-- The pointer-gated overwrite fold is `lastLockMask`. -/
lemma overwrite_eq_lastLockMask (cells : List (Nat × UInt8)) (kc : UInt8)
    (ptr : Bool) (init : Nat) :
    (if ptr then
        cells.foldl (fun v c => if c.2 = kc then 2 ^ c.1 else v) init
      else init)
      = lastLockMask cells kc ptr init := by
  cases ptr
  · rfl
  · exact foldl_overwrite_eq_getLast cells kc init

/-- C9 counterexample: an 8-by-1 modifier table whose cell (0, 0) holds
keycode 5, with the Num Lock and Shift Lock keycodes both 5 (as happens
when both keysyms resolve to the same keycode) and all output pointers
non-null.  Cell (0, 0) matches the Shift Lock keycode, so the claim
assigns `1 << 0 = 1` to the shift output, but the `else if` chain gives
the cell to the num branch: the result is `(1, 0, 0)`, with the shift
output left at its initial 0. -/
theorem getlockmask_shadow_cex :
    (ModmapReply.mk 1 (fun n => if n = 0 then 5 else 0)).keycodes
        (0 * 1 + 0) = 5 ∧
    xutil_getlockmask
        (some (ModmapReply.mk 1 (fun n => if n = 0 then 5 else 0)))
        5 5 6 true true true 0 0 0
      = some (1, 0, 0) := by
  refine ⟨rfl, ?_⟩
  decide

/-- C9 (amended): when the keycodes bound to the three lock keysyms are
pairwise distinct, every cell `(i, j)` whose keycode equals a lock's
keycode assigns `1 << i` to that lock's output, the last matching cell
in row-major scan order winning, and an output is written only when its
pointer is non-null (otherwise it keeps its initial value).  When two
lock keycodes coincide, a matching cell is taken by the first matching
branch of the `else if` chain (num before shift before caps) only. -/
theorem getlockmask_scan_amended (r : ModmapReply)
    (kcNum kcShift kcCaps : UInt8) (numPtr shiftPtr capsPtr : Bool)
    (num0 shift0 caps0 : Nat)
    (hns : kcNum ≠ kcShift) (hnc : kcNum ≠ kcCaps)
    (hsc : kcShift ≠ kcCaps) :
    xutil_getlockmask (some r) kcNum kcShift kcCaps numPtr shiftPtr capsPtr
        num0 shift0 caps0
      = some (lastLockMask (lockCells r) kcNum numPtr num0,
          lastLockMask (lockCells r) kcShift shiftPtr shift0,
          lastLockMask (lockCells r) kcCaps capsPtr caps0) := by
  rw [getlockmask_eq_cells]
  refine congrArg some ?_
  refine Prod.ext ?_ (Prod.ext ?_ ?_)
  · rw [foldl_lockStep_fst kcNum kcShift kcCaps numPtr shiftPtr capsPtr
      (lockCells r) (num0, shift0, caps0)]
    exact overwrite_eq_lastLockMask (lockCells r) kcNum numPtr num0
  · rw [foldl_lockStep_snd kcNum kcShift kcCaps numPtr shiftPtr capsPtr
      hns (lockCells r) (num0, shift0, caps0)]
    exact overwrite_eq_lastLockMask (lockCells r) kcShift shiftPtr shift0
  · rw [foldl_lockStep_thd kcNum kcShift kcCaps numPtr shiftPtr capsPtr
      hnc hsc (lockCells r) (num0, shift0, caps0)]
    exact overwrite_eq_lastLockMask (lockCells r) kcCaps capsPtr caps0

/-- C9 witness: an 8-by-2 table with distinct lock keycodes 50, 77, 60:
keycode 50 sits in row 1 (num mask `1 << 1 = 2`), 77 nowhere (shift
output keeps its initial 9), and 60 in rows 2 and 6 — the later row-6
cell wins (caps mask `1 << 6 = 64`). -/
theorem getlockmask_scan_amended_witness :
    xutil_getlockmask
        (some (ModmapReply.mk 2
          (fun n => if n = 3 then 50 else if n = 5 then 60
            else if n = 13 then 60 else 0)))
        50 77 60 true true true 9 9 9
      = some (2, 9, 64) :=
  (getlockmask_scan_amended
      (ModmapReply.mk 2
        (fun n => if n = 3 then 50 else if n = 5 then 60
          else if n = 13 then 60 else 0))
      50 77 60 true true true 9 9 9
      (by decide) (by decide) (by decide)).trans (by decide)

end Awesome
